import Mathlib

/-!
Shallow embedding of `src/ollama_model_keeper.py` (the ollama-model-keeper
reconciler).  The script keeps one target model loaded in a local ollama
daemon: it probes the set of loaded models (`client.ps()`), classifies the
snapshot, and either loads the target (`client.generate(model, keep_alive=-1)`),
waits for other models to expire, or keeps monitoring.

Times are epoch seconds, modelled as `Int`.  A raw loaded-model record is a
dictionary with optional `name` and `expires_at` keys: a missing key is
`none`; `model["name"]` on a record whose key is missing raises (a `KeyError`)
and `model.get("expires_at", 0)` defaults to `0`.

The control flow of `main` / `monitor_for_other_models` is embedded as a step
machine: `Phase` records where the script is between two awaited external
events (a probe result, a load result, or a stop signal), and `step` consumes
one event and emits the externally visible actions (loads, sleeps, error
logs) performed before the next event is awaited.
-/

namespace OllamaKeeper

/-- Failures surfaced to the top-level loop: daemon communication failures and
a record missing its `name` key (Python `KeyError`). -/
inductive Err where
  | communication
  | keyError
deriving DecidableEq, Repr

/-- One entry of the daemon's `ps` response: both fields may be missing. -/
structure RawRecord where
  name : Option String
  expires_at : Option Int
deriving DecidableEq, Repr

/-- The list of loaded-model records returned by one probe. -/
abbrev Snapshot := List RawRecord

/-- Externally visible actions of the script. -/
inductive Action where
  | load (model : String)
  | sleep (secs : Int)
  | logError
  | logModels (names : List String)
deriving DecidableEq, Repr

/-- Where the script is, between two awaited external events. -/
inductive Phase where
  | mainStart
  | monitoring
  | reprobing
  | loading
  | halted
deriving DecidableEq, Repr

/-- An external event the script awaits: the result of `check_loaded_models`,
the result of `client.generate` inside `load_model`, or a stop signal
(`KeyboardInterrupt`). -/
inductive Event where
  | probe (r : Except Err Snapshot)
  | loadResult (r : Except Err Unit)
  | stop

/-- `CYCLE_INTERVAL = 5` (seconds between cycles). -/
def CYCLE_INTERVAL : Int := 5

/-- `MONITOR_INTERVAL = 60` (seconds between monitor checks). -/
def MONITOR_INTERVAL : Int := 60

/-- `[model["name"] for model in models]`: the comprehension raises on the
first record whose `name` key is missing. -/
def namesOf : Snapshot → Except Err (List String)
  | [] => .ok []
  | m :: rest =>
    match m.name with
    | none => .error .keyError
    | some n =>
      match namesOf rest with
      | .error e => .error e
      | .ok ns => .ok (n :: ns)

/-- The `latest_expires_at` accumulation loop of `main` (lines 125-134):
records whose `expires_at` is missing or `0` are skipped, and a future
timestamp updates the running max, with no buffer added. -/
def latestLoopMain (now : Int) : Int → Snapshot → Int
  | latest, [] => latest
  | latest, m :: rest =>
    let e := m.expires_at.getD 0
    if e = 0 then latestLoopMain now latest rest
    else if e > now then latestLoopMain now (max latest e) rest
    else latestLoopMain now latest rest

/-- `latest_expires_at` as computed in `main`, starting from `0`. -/
def latestExpiresMain (snap : Snapshot) (now : Int) : Int :=
  latestLoopMain now 0 snap

/-- The `latest_expires_at` accumulation loop of `monitor_for_other_models`
(lines 77-88): like the one in `main`, except that for every future
timestamp the update is `max(latest, ts) + 5`, so 5 seconds are added once
per currently-expiring record. -/
def latestLoopMonitor (now : Int) : Int → Snapshot → Int
  | latest, [] => latest
  | latest, m :: rest =>
    let e := m.expires_at.getD 0
    if e = 0 then latestLoopMonitor now latest rest
    else if e > now then latestLoopMonitor now (max latest e + 5) rest
    else latestLoopMonitor now latest rest

/-- `latest_expires_at` as computed in the monitor, starting from `0`. -/
def latestExpiresMonitor (snap : Snapshot) (now : Int) : Int :=
  latestLoopMonitor now 0 snap

/-- `wait_for_unload`: sleep `max(0, expires_at - now)` seconds, sleeping only
when that is positive. -/
def wait_for_unload (expires_at now : Int) : List Action :=
  let remaining := max 0 (expires_at - now)
  if remaining > 0 then [.sleep remaining] else []

/-- Actions of `main`'s exception handler: log the error, sleep the fixed
10-second backoff, then restart the cycle from a fresh probe. -/
def errorActions : List Action := [.logError, .sleep 10]

/-- Body of `main`'s cycle (lines 114-158) applied to a successful probe:
classify the snapshot and decide the next phase and the actions emitted
before the next awaited event. -/
def mainBody (target : String) (now : Int) (snap : Snapshot) : Phase × List Action :=
  match namesOf snap with
  | .error _ => (.mainStart, errorActions)
  | .ok names =>
    if target ∈ names then
      (.monitoring, [])
    else if snap ≠ [] then
      let latest := latestExpiresMain snap now
      if latest > 0 then (.reprobing, wait_for_unload latest now)
      else (.mainStart, [.sleep MONITOR_INTERVAL, .sleep CYCLE_INTERVAL])
    else
      (.loading, [.load target])

/-- Body of the `monitor_for_other_models` loop (lines 61-99) applied to a
successful probe.  `return True` means main skips the load and ends the
cycle; `return False` means main loads the target. -/
def monitorBody (target : String) (now : Int) (snap : Snapshot) : Phase × List Action :=
  match namesOf snap with
  | .error _ => (.mainStart, errorActions)
  | .ok names =>
    if target ∈ names then
      if names.length > 1 then (.mainStart, [.sleep CYCLE_INTERVAL])
      else (.monitoring, [.sleep MONITOR_INTERVAL])
    else if snap ≠ [] then
      let latest := latestExpiresMonitor snap now
      if latest > 0 then (.monitoring, wait_for_unload latest now)
      else (.monitoring, [.sleep MONITOR_INTERVAL])
    else
      (.loading, [.load target])

/-- Body of `main`'s re-check after waiting (lines 141-147): if the new
snapshot is empty, load the target; otherwise log the remaining models and
end the cycle without loading. -/
def reprobeBody (target : String) (snap : Snapshot) : Phase × List Action :=
  if snap = [] then (.loading, [.load target])
  else
    match namesOf snap with
    | .error _ => (.mainStart, errorActions)
    | .ok names => (.mainStart, [.logModels names, .sleep CYCLE_INTERVAL])

/-- One step of the script: consume the awaited external event and emit the
actions performed before the next event is awaited.  Any exception reaching
`main`'s handler yields `errorActions` and a fresh cycle; `KeyboardInterrupt`
halts the loop. -/
def step (target : String) (now : Int) : Phase → Event → Phase × List Action
  | .halted, _ => (.halted, [])
  | _, .stop => (.halted, [])
  | .mainStart, .probe (.error _) => (.mainStart, errorActions)
  | .mainStart, .probe (.ok snap) => mainBody target now snap
  | .monitoring, .probe (.error _) => (.mainStart, errorActions)
  | .monitoring, .probe (.ok snap) => monitorBody target now snap
  | .reprobing, .probe (.error _) => (.mainStart, errorActions)
  | .reprobing, .probe (.ok snap) => reprobeBody target snap
  | .loading, .loadResult (.ok _) => (.mainStart, [.sleep CYCLE_INTERVAL])
  | .loading, .loadResult (.error _) => (.mainStart, errorActions)
  | ph, _ => (ph, [])

/-- Run the step machine over a list of timestamped events, concatenating the
emitted actions. -/
def run (target : String) : Phase → List (Int × Event) → Phase × List Action
  | ph, [] => (ph, [])
  | ph, (now, ev) :: evs =>
    let s := step target now ph ev
    let r := run target s.1 evs
    (r.1, s.2 ++ r.2)

/-- The single request issued by `load_model`. -/
structure GenerateRequest where
  model : String
  keep_alive : Int
deriving DecidableEq, Repr

/-- `load_model` (lines 36-44): issue one `client.generate` call with
`keep_alive=-1`; the response is only logged, never consumed; an exception is
re-raised.  Returns the requests issued and the surfaced result. -/
def load_model (model_name : String) (resp : Except Err String) :
    List GenerateRequest × Except Err Unit :=
  ([{ model := model_name, keep_alive := -1 }],
    match resp with
    | .ok _ => .ok ()
    | .error e => .error e)

/-- Boolean test: the event is a successful probe of a nonempty snapshot all
of whose records carry a name different from the target and have a missing or
zero `expires_at`. -/
def othersNeverEvent (target : String) : Event → Bool
  | .probe (.ok snap) =>
    !snap.isEmpty &&
      snap.all (fun m => m.name.isSome && (m.name != some target) && (m.expires_at.getD 0 == 0))
  | _ => false

/-- Skipping every record leaves the `main` accumulator unchanged. -/
theorem latestLoopMain_allNever (now : Int) (snap : Snapshot)
    (h : ∀ m ∈ snap, m.expires_at.getD 0 = 0) :
    ∀ acc, latestLoopMain now acc snap = acc := by
  induction snap with
  | nil => intro acc; rfl
  | cons m rest ih =>
    intro acc
    have hm := h m (by simp)
    simp [latestLoopMain, hm]
    exact ih (fun x hx => h x (by simp [hx])) acc

/-- Skipping every record leaves the monitor accumulator unchanged. -/
theorem latestLoopMonitor_allNever (now : Int) (snap : Snapshot)
    (h : ∀ m ∈ snap, m.expires_at.getD 0 = 0) :
    ∀ acc, latestLoopMonitor now acc snap = acc := by
  induction snap with
  | nil => intro acc; rfl
  | cons m rest ih =>
    intro acc
    have hm := h m (by simp)
    simp [latestLoopMonitor, hm]
    exact ih (fun x hx => h x (by simp [hx])) acc

/-- When every record has a name and none is the target, name extraction
succeeds with a list avoiding the target. -/
theorem namesOf_ok (target : String) (snap : Snapshot)
    (h : ∀ m ∈ snap, m.name ≠ none ∧ m.name ≠ some target) :
    ∃ ns, namesOf snap = .ok ns ∧ target ∉ ns ∧ ns.length = snap.length := by
  induction snap with
  | nil => exact ⟨[], rfl, by simp, rfl⟩
  | cons m rest ih =>
    obtain ⟨h1, h2⟩ := h m (by simp)
    obtain ⟨n, hn⟩ := Option.ne_none_iff_exists'.mp h1
    obtain ⟨ns, hns, hmem, hlen⟩ := ih (fun x hx => h x (by simp [hx]))
    refine ⟨n :: ns, ?_, ?_, by simp [hlen]⟩
    · simp [namesOf, hn, hns]
    · intro hc
      rcases List.mem_cons.mp hc with hEq | hIn
      · exact h2 (by rw [hn, hEq])
      · exact hmem hIn

/-- A record with a missing `name` key anywhere in the snapshot makes name
extraction raise. -/
theorem namesOf_error (snap : Snapshot) (h : ∃ m ∈ snap, m.name = none) :
    namesOf snap = .error .keyError := by
  induction snap with
  | nil => simp at h
  | cons m rest ih =>
    obtain ⟨x, hx, hxn⟩ := h
    rcases List.mem_cons.mp hx with rfl | hIn
    · simp [namesOf, hxn]
    · cases hm : m.name with
      | none => simp [namesOf, hm]
      | some n => simp [namesOf, hm, ih ⟨x, hIn, hxn⟩]

/-- On an others-only snapshot whose records all have a missing or zero
expiry, `main` sleeps `MONITOR_INTERVAL` then the cycle sleep, with no load. -/
theorem step_mainStart_othersNever (target : String) (now : Int) (snap : Snapshot)
    (hne : snap ≠ [])
    (h : ∀ m ∈ snap, m.name ≠ none ∧ m.name ≠ some target ∧ m.expires_at.getD 0 = 0) :
    step target now .mainStart (.probe (.ok snap)) =
      (.mainStart, [.sleep MONITOR_INTERVAL, .sleep CYCLE_INTERVAL]) := by
  obtain ⟨ns, hns, hmem, _⟩ := namesOf_ok target snap (fun m hm => ⟨(h m hm).1, (h m hm).2.1⟩)
  have hlat : latestExpiresMain snap now = 0 :=
    latestLoopMain_allNever now snap (fun m hm => (h m hm).2.2) 0
  simp [step, mainBody, hns, hmem, hne, latestExpiresMain] at hlat ⊢
  simp [hlat]

/-- On an others-only snapshot whose records all have a missing or zero
expiry, the monitor sleeps `MONITOR_INTERVAL` and keeps monitoring. -/
theorem step_monitoring_othersNever (target : String) (now : Int) (snap : Snapshot)
    (hne : snap ≠ [])
    (h : ∀ m ∈ snap, m.name ≠ none ∧ m.name ≠ some target ∧ m.expires_at.getD 0 = 0) :
    step target now .monitoring (.probe (.ok snap)) =
      (.monitoring, [.sleep MONITOR_INTERVAL]) := by
  obtain ⟨ns, hns, hmem, _⟩ := namesOf_ok target snap (fun m hm => ⟨(h m hm).1, (h m hm).2.1⟩)
  have hlat : latestExpiresMonitor snap now = 0 :=
    latestLoopMonitor_allNever now snap (fun m hm => (h m hm).2.2) 0
  simp [step, monitorBody, hns, hmem, hne, latestExpiresMonitor] at hlat ⊢
  simp [hlat]

/-- The first component of `mainBody` is never the halted phase. -/
theorem mainBody_fst_ne_halted (target : String) (now : Int) (snap : Snapshot) :
    (mainBody target now snap).1 ≠ .halted := by
  rcases h : namesOf snap with e | ns <;> simp [mainBody, h] <;> split_ifs <;> simp [errorActions]

/-- The first component of `monitorBody` is never the halted phase. -/
theorem monitorBody_fst_ne_halted (target : String) (now : Int) (snap : Snapshot) :
    (monitorBody target now snap).1 ≠ .halted := by
  rcases h : namesOf snap with e | ns <;> simp [monitorBody, h] <;> split_ifs <;> simp [errorActions]

/-- The first component of `reprobeBody` is never the halted phase. -/
theorem reprobeBody_fst_ne_halted (target : String) (snap : Snapshot) :
    (reprobeBody target snap).1 ≠ .halted := by
  rcases h : namesOf snap with e | ns <;> simp [reprobeBody, h] <;> split_ifs <;> simp [errorActions]

/-- Unpack the boolean `othersNeverEvent` test into its propositional
content. -/
theorem othersNeverEvent_elim (target : String) (ev : Event)
    (h : othersNeverEvent target ev = true) :
    ∃ snap, ev = .probe (.ok snap) ∧ snap ≠ [] ∧
      ∀ m ∈ snap, m.name ≠ none ∧ m.name ≠ some target ∧ m.expires_at.getD 0 = 0 := by
  cases ev with
  | stop => simp [othersNeverEvent] at h
  | loadResult r => simp [othersNeverEvent] at h
  | probe r =>
    cases r with
    | error e => simp [othersNeverEvent] at h
    | ok snap =>
      simp only [othersNeverEvent, Bool.and_eq_true, List.all_eq_true] at h
      obtain ⟨hne, hall⟩ := h
      refine ⟨snap, rfl, by simpa using hne, fun m hm => ?_⟩
      have := hall m hm
      simp only [Bool.and_eq_true, bne_iff_ne, beq_iff_eq, Option.isSome_iff_ne_none] at this
      exact ⟨this.1.1, this.1.2, this.2⟩

/-- Claim C1 fails on the code: in `main`'s others-branch (target absent, one
other model with future expiry 100 at time 10) the computed wait is
`max(0, t - now) = 90` seconds, not the claimed `max(0, t + 5 - now) = 95`:
`main` adds no 5-second buffer at all. -/
theorem c1_counterexample :
    step "B" 10 .mainStart (.probe (.ok [⟨some "A", some 100⟩])) = (.reprobing, [.sleep 90]) ∧
    (90 : Int) ≠ max 0 (100 + 5 - 10) := by decide

/-- Claim C1 (amended): in the outer main loop the wait before the re-probe is
`max(0, t - now)` with no buffer; in the monitor sub-loop 5 seconds are added
to the running maximum once per currently-expiring record, so one expiring
model yields `max(0, t + 5 - now)` and two expiring models with the same
timestamp yield `max(0, t + 10 - now)`. -/
theorem c1_amended (target nameA nameB : String) (t now : Int)
    (hA : nameA ≠ target) (hB : nameB ≠ target) (ht : 0 < t) (htn : now < t) :
    step target now .mainStart (.probe (.ok [⟨some nameA, some t⟩])) =
      (.reprobing, [.sleep (t - now)]) ∧
    step target now .monitoring (.probe (.ok [⟨some nameA, some t⟩])) =
      (.monitoring, [.sleep (t + 5 - now)]) ∧
    step target now .monitoring (.probe (.ok [⟨some nameA, some t⟩, ⟨some nameB, some t⟩])) =
      (.monitoring, [.sleep (t + 10 - now)]) := by
  have ht0 : t ≠ 0 := by omega
  have hts : target ≠ nameA := Ne.symm hA
  have htsB : target ≠ nameB := Ne.symm hB
  refine ⟨?_, ?_, ?_⟩ <;>
    simp [step, mainBody, monitorBody, namesOf, latestExpiresMain, latestLoopMain,
      latestExpiresMonitor, latestLoopMonitor, wait_for_unload, hts, htsB, ht0, htn] <;>
    split_ifs <;>
    simp_all [Prod.mk.injEq, List.cons.injEq, Action.sleep.injEq, sup_eq_max] <;>
    omega

/-- Witness for the amended claim C1 at target "B", t = 100, now = 10. -/
theorem c1_witness :
    step "B" 10 .mainStart (.probe (.ok [⟨some "A", some 100⟩])) = (.reprobing, [.sleep 90]) ∧
    step "B" 10 .monitoring (.probe (.ok [⟨some "A", some 100⟩])) = (.monitoring, [.sleep 95]) ∧
    step "B" 10 .monitoring (.probe (.ok [⟨some "A", some 100⟩, ⟨some "C", some 100⟩])) =
      (.monitoring, [.sleep 100]) :=
  c1_amended "B" "A" "C" 100 10 (by decide) (by decide) (by decide) (by decide)

/-- Claim C2 fails on the code: on a Mixed snapshot (target "B" plus other
"A") the monitor sub-loop exits immediately (back to the outer loop), instead
of keeping monitoring while other models remain; it is on the target-only
snapshot that it keeps monitoring at `MONITOR_INTERVAL`. -/
theorem c2_counterexample :
    (step "B" 0 .monitoring (.probe (.ok [⟨some "B", none⟩, ⟨some "A", none⟩]))).1 = .mainStart ∧
    Phase.mainStart ≠ Phase.monitoring ∧
    step "B" 0 .monitoring (.probe (.ok [⟨some "B", none⟩])) =
      (.monitoring, [.sleep MONITOR_INTERVAL]) := by decide

/-- Claim C2 (amended): on a Mixed snapshot no Loader call is issued; the
monitor sub-loop returns immediately (other models detected) and the outer
loop re-enters after `CYCLE_INTERVAL`; the sub-loop keeps probing every
`MONITOR_INTERVAL` only while the target is the sole loaded entry. -/
theorem c2_amended (target : String) (now : Int) (snap : Snapshot) (ns : List String)
    (hns : namesOf snap = .ok ns) (hmem : target ∈ ns) (hlen : 1 < ns.length) :
    step target now .mainStart (.probe (.ok snap)) = (.monitoring, []) ∧
    step target now .monitoring (.probe (.ok snap)) = (.mainStart, [.sleep CYCLE_INTERVAL]) ∧
    (∀ e : Option Int, step target now .monitoring (.probe (.ok [⟨some target, e⟩])) =
        (.monitoring, [.sleep MONITOR_INTERVAL])) := by
  refine ⟨?_, ?_, ?_⟩
  · simp [step, mainBody, hns, hmem]
  · simp [step, monitorBody, hns, hmem, hlen]
  · intro e
    simp [step, monitorBody, namesOf]

/-- Witness for the amended claim C2 on the Mixed snapshot ["B", "A"]. -/
theorem c2_witness :
    step "B" 0 .mainStart (.probe (.ok [⟨some "B", none⟩, ⟨some "A", none⟩])) = (.monitoring, []) ∧
    step "B" 0 .monitoring (.probe (.ok [⟨some "B", none⟩, ⟨some "A", none⟩])) =
      (.mainStart, [.sleep CYCLE_INTERVAL]) ∧
    (∀ e : Option Int, step "B" 0 .monitoring (.probe (.ok [⟨some "B", e⟩])) =
        (.monitoring, [.sleep MONITOR_INTERVAL])) :=
  c2_amended "B" 0 [⟨some "B", none⟩, ⟨some "A", none⟩] ["B", "A"]
    rfl (by decide) (by decide)

/-- Claim C3 fails on the code: a record lacking `expires_at` is not treated
as a failure; it is silently classified as never-expiring (sleep branch),
which differs from the communication-failure outcome (log plus 10-second
backoff). -/
theorem c3_counterexample :
    step "B" 0 .mainStart (.probe (.ok [⟨some "A", none⟩])) =
      (.mainStart, [.sleep MONITOR_INTERVAL, .sleep CYCLE_INTERVAL]) ∧
    step "B" 0 .mainStart (.probe (.error .communication)) = (.mainStart, [.logError, .sleep 10]) ∧
    [Action.sleep MONITOR_INTERVAL, .sleep CYCLE_INTERVAL] ≠ [Action.logError, .sleep 10] := by
  decide

/-- Claim C3 (amended): only a record lacking the `name` field makes the cycle
fail exactly like a communication failure (logged, 10-second backoff, cycle
retried), in both the main cycle and the monitor sub-loop; a missing
`expires_at` is silently defaulted to the never marker. -/
theorem c3_amended (target : String) (now : Int) (snap : Snapshot)
    (h : ∃ m ∈ snap, m.name = none) :
    step target now .mainStart (.probe (.ok snap)) =
      step target now .mainStart (.probe (.error .communication)) ∧
    step target now .monitoring (.probe (.ok snap)) =
      step target now .monitoring (.probe (.error .communication)) := by
  have he := namesOf_error snap h
  constructor <;> simp [step, mainBody, monitorBody, he]

/-- Witness for the amended claim C3 on a snapshot with one nameless record. -/
theorem c3_witness :
    step "B" 0 .mainStart (.probe (.ok [⟨none, some 7⟩])) =
      step "B" 0 .mainStart (.probe (.error .communication)) ∧
    step "B" 0 .monitoring (.probe (.ok [⟨none, some 7⟩])) =
      step "B" 0 .monitoring (.probe (.error .communication)) :=
  c3_amended "B" 0 [⟨none, some 7⟩] (by decide)

/-- Claim C4: on an empty snapshot exactly one Loader call for the target is
issued before the next probe, and after the load completes the loop returns
to the normal polling cadence (sleep `CYCLE_INTERVAL`, fresh cycle). -/
theorem c4 (target : String) (now now2 : Int) :
    step target now .mainStart (.probe (.ok [])) = (.loading, [.load target]) ∧
    step target now2 .loading (.loadResult (.ok ())) = (.mainStart, [.sleep CYCLE_INTERVAL]) :=
  ⟨rfl, rfl⟩

/-- Claim C5: on a snapshot containing only the target model no Loader call is
issued that cycle: the main cycle just enters monitoring, and the monitor
sleeps `MONITOR_INTERVAL` and keeps monitoring. -/
theorem c5 (target : String) (e : Option Int) (now : Int) :
    step target now .mainStart (.probe (.ok [⟨some target, e⟩])) = (.monitoring, []) ∧
    step target now .monitoring (.probe (.ok [⟨some target, e⟩])) =
      (.monitoring, [.sleep MONITOR_INTERVAL]) := by
  constructor <;> simp [step, mainBody, monitorBody, namesOf]

/-- Claim C6: over any sequence of probes returning others-only snapshots
whose expiries are all "never", the script never emits a load: from the main
phase every cycle sleeps `MONITOR_INTERVAL` (plus the cycle sleep) and
re-evaluates, and from the monitoring phase every check sleeps
`MONITOR_INTERVAL`, indefinitely. -/
theorem c6 (target : String) (evs : List (Int × Event))
    (h : ∀ p ∈ evs, othersNeverEvent target p.2 = true) :
    ((run target .mainStart evs).1 = .mainStart ∧
      ∀ a ∈ (run target .mainStart evs).2,
        a = .sleep MONITOR_INTERVAL ∨ a = .sleep CYCLE_INTERVAL) ∧
    ((run target .monitoring evs).1 = .monitoring ∧
      ∀ a ∈ (run target .monitoring evs).2, a = .sleep MONITOR_INTERVAL) := by
  induction evs with
  | nil => simp [run]
  | cons p rest ih =>
    obtain ⟨now, ev⟩ := p
    obtain ⟨snap, rfl, hne, hprops⟩ := othersNeverEvent_elim target ev (h (now, ev) (by simp))
    have hrest := ih (fun q hq => h q (by simp [hq]))
    have h1 := step_mainStart_othersNever target now snap hne hprops
    have h2 := step_monitoring_othersNever target now snap hne hprops
    refine ⟨⟨?_, ?_⟩, ?_, ?_⟩
    · simp [run, h1, hrest.1.1]
    · intro a ha
      simp [run, h1] at ha
      rcases ha with ha | ha | ha
      · exact Or.inl ha
      · exact Or.inr ha
      · exact hrest.1.2 a ha
    · simp [run, h2, hrest.2.1]
    · intro a ha
      simp [run, h2] at ha
      rcases ha with ha | ha
      · exact ha
      · exact hrest.2.2 a ha

/-- Witness for claim C6 on a two-probe sequence of never-expiring other
models. -/
theorem c6_witness :
    ((run "B" .mainStart
        [(0, .probe (.ok [⟨some "A", none⟩])), (100, .probe (.ok [⟨some "A", some 0⟩]))]).1 =
          .mainStart ∧
      ∀ a ∈ (run "B" .mainStart
        [(0, .probe (.ok [⟨some "A", none⟩])), (100, .probe (.ok [⟨some "A", some 0⟩]))]).2,
        a = .sleep MONITOR_INTERVAL ∨ a = .sleep CYCLE_INTERVAL) ∧
    ((run "B" .monitoring
        [(0, .probe (.ok [⟨some "A", none⟩])), (100, .probe (.ok [⟨some "A", some 0⟩]))]).1 =
          .monitoring ∧
      ∀ a ∈ (run "B" .monitoring
        [(0, .probe (.ok [⟨some "A", none⟩])), (100, .probe (.ok [⟨some "A", some 0⟩]))]).2,
        a = .sleep MONITOR_INTERVAL) :=
  c6 "B" [(0, .probe (.ok [⟨some "A", none⟩])), (100, .probe (.ok [⟨some "A", some 0⟩]))]
    (by decide)

/-- Claim C7: when the target is absent and at least one currently-expiring
other model exists (positive accumulated maximum), `main` waits the computed
duration and moves to the re-probe phase, which consumes exactly one probe:
an empty re-probe triggers the Loader for the target, a nonempty one logs the
remaining models and ends the cycle without loading. -/
theorem c7 (target : String) (now now2 : Int) (snap snap2 : Snapshot) (ns ns2 : List String)
    (hns : namesOf snap = .ok ns) (htgt : target ∉ ns) (hne : snap ≠ [])
    (hexp : 0 < latestExpiresMain snap now)
    (hns2 : namesOf snap2 = .ok ns2) (hne2 : snap2 ≠ []) :
    step target now .mainStart (.probe (.ok snap)) =
      (.reprobing, wait_for_unload (latestExpiresMain snap now) now) ∧
    step target now2 .reprobing (.probe (.ok [])) = (.loading, [.load target]) ∧
    step target now2 .reprobing (.probe (.ok snap2)) =
      (.mainStart, [.logModels ns2, .sleep CYCLE_INTERVAL]) := by
  refine ⟨?_, rfl, ?_⟩
  · simp [step, mainBody, hns, htgt, hne, hexp]
  · simp [step, reprobeBody, hns2, hne2]

/-- Witness for claim C7 with one expiring model at 100 seen at time 10. -/
theorem c7_witness :
    step "B" 10 .mainStart (.probe (.ok [⟨some "A", some 100⟩])) =
      (.reprobing, wait_for_unload (latestExpiresMain [⟨some "A", some 100⟩] 10) 10) ∧
    step "B" 120 .reprobing (.probe (.ok [])) = (.loading, [.load "B"]) ∧
    step "B" 120 .reprobing (.probe (.ok [⟨some "C", some 200⟩])) =
      (.mainStart, [.logModels ["C"], .sleep CYCLE_INTERVAL]) :=
  c7 "B" 10 120 [⟨some "A", some 100⟩] [⟨some "C", some 200⟩] ["A"] ["C"]
    rfl (by decide) (by decide) (by decide) rfl (by decide)

/-- Claim C8: every probe or load failure surfaces to the outer loop, which
logs it, sleeps the fixed 10-second backoff and restarts from a fresh probe,
with no load emitted that cycle; a stop signal halts from any phase; and no
step halts except on a stop signal. -/
theorem c8 (target : String) (now : Int) :
    (∀ e, step target now .mainStart (.probe (.error e)) = (.mainStart, [.logError, .sleep 10])) ∧
    (∀ e, step target now .monitoring (.probe (.error e)) = (.mainStart, [.logError, .sleep 10])) ∧
    (∀ e, step target now .reprobing (.probe (.error e)) = (.mainStart, [.logError, .sleep 10])) ∧
    (∀ e, step target now .loading (.loadResult (.error e)) = (.mainStart, [.logError, .sleep 10])) ∧
    (∀ m : String, Action.load m ∉ ([Action.logError, Action.sleep 10] : List Action)) ∧
    (∀ ph, step target now ph .stop = (.halted, [])) ∧
    (∀ ph ev, ph ≠ .halted → ev ≠ .stop → (step target now ph ev).1 ≠ .halted) := by
  refine ⟨fun e => rfl, fun e => rfl, fun e => rfl, fun e => rfl, by intro m; simp, ?_, ?_⟩
  · intro ph; cases ph <;> rfl
  · intro ph ev hph hev
    cases ph with
    | halted => exact absurd rfl hph
    | mainStart =>
      cases ev with
      | stop => exact absurd rfl hev
      | loadResult r => simp [step]
      | probe r =>
        cases r with
        | error e => simp [step, errorActions]
        | ok snap => simp [step]; exact mainBody_fst_ne_halted target now snap
    | monitoring =>
      cases ev with
      | stop => exact absurd rfl hev
      | loadResult r => simp [step]
      | probe r =>
        cases r with
        | error e => simp [step, errorActions]
        | ok snap => simp [step]; exact monitorBody_fst_ne_halted target now snap
    | reprobing =>
      cases ev with
      | stop => exact absurd rfl hev
      | loadResult r => simp [step]
      | probe r =>
        cases r with
        | error e => simp [step, errorActions]
        | ok snap => simp [step]; exact reprobeBody_fst_ne_halted target snap
    | loading =>
      cases ev with
      | stop => exact absurd rfl hev
      | probe r => simp [step]
      | loadResult r => cases r with
        | error e => simp [step, errorActions]
        | ok u => simp [step]

/-- Witness for claim C8: a failed probe, a failed load, a stop signal, and a
non-halting normal step, all at concrete inputs. -/
theorem c8_witness :
    step "B" 0 .mainStart (.probe (.error .communication)) = (.mainStart, [.logError, .sleep 10]) ∧
    step "B" 0 .loading (.loadResult (.error .communication)) =
      (.mainStart, [.logError, .sleep 10]) ∧
    step "B" 0 .monitoring .stop = (.halted, []) ∧
    (step "B" 0 .mainStart (.probe (.ok []))).1 ≠ .halted :=
  ⟨(c8 "B" 0).1 .communication,
    (c8 "B" 0).2.2.2.1 .communication,
    (c8 "B" 0).2.2.2.2.2.1 .monitoring,
    (c8 "B" 0).2.2.2.2.2.2 .mainStart (.probe (.ok []))
      (by simp) (by simp)⟩

/-- Claim C9: `load_model` issues exactly one generate request, for the given
model name with `keep_alive = -1`, and its behaviour is independent of the
content of the generation response (no output is consumed). -/
theorem c9 (name : String) (resp : Except Err String) :
    (load_model name resp).1 = [{ model := name, keep_alive := -1 }] ∧
    (∀ r1 r2 : String, load_model name (.ok r1) = load_model name (.ok r2)) :=
  ⟨rfl, fun _ _ => rfl⟩

/-- Claim C10: a record whose `expires_at` is absent behaves exactly like one
whose `expires_at` equals 0, in every phase (silently classified as
never-expiring, no error); and a snapshot of only such another model takes
the non-expiring branch: sleep `MONITOR_INTERVAL`, no Loader call. -/
theorem c10 (target nm : String) (rest : Snapshot) (now : Int) (hne : nm ≠ target) :
    (∀ ph : Phase, step target now ph (.probe (.ok (⟨some nm, none⟩ :: rest))) =
        step target now ph (.probe (.ok (⟨some nm, some 0⟩ :: rest)))) ∧
    step target now .mainStart (.probe (.ok [⟨some nm, none⟩])) =
      (.mainStart, [.sleep MONITOR_INTERVAL, .sleep CYCLE_INTERVAL]) := by
  constructor
  · intro ph; cases ph <;> rfl
  · exact step_mainStart_othersNever target now [⟨some nm, none⟩] (by simp)
      (by intro m hm; simp at hm; simp [hm, hne])

/-- Witness for claim C10 at target "B" and a record named "A". -/
theorem c10_witness :
    (∀ ph : Phase, step "B" 0 ph (.probe (.ok [⟨some "A", none⟩, ⟨some "C", some 9⟩])) =
        step "B" 0 ph (.probe (.ok [⟨some "A", some 0⟩, ⟨some "C", some 9⟩]))) ∧
    step "B" 0 .mainStart (.probe (.ok [⟨some "A", none⟩])) =
      (.mainStart, [.sleep MONITOR_INTERVAL, .sleep CYCLE_INTERVAL]) :=
  c10 "B" "A" [⟨some "C", some 9⟩] 0 (by decide)

end OllamaKeeper
